import Mathlib

/-
Verification development for the pygridgen package.

Scalars are modelled as exact rationals (ℚ); numpy arrays as lists
(1-D) or lists of lists (2-D, row major).  The CSA interpolator is
embedded from src/pygridgen/csa.py.  The grid module itself
(pygridgen/grid.py) is not part of the sources; the components it
implements (StaggerDeriver, MaskEngine, SpecCodec, the solve wrapper)
are modelled from the specification and validated against the golden
tables recorded in src/pygridgen/tests/test_grid.py.

numpy.testing.assert_array_almost_equal with decimal=d accepts entries
whose absolute difference is below 1.5 * 10^(-d); the golden tables in
the tests are compared with decimal=2, so the matching tolerance used
here is 3/200 = 1.5e-2.
-/

/-! ## CSA interpolator, embedded from src/pygridgen/csa.py -/

/-- A C double as returned by the external csa_approximatepoints2
routine: either an ordinary value or NaN (the routine writes NaN at
output points where the local spline fit produced no value). -/
inductive CDouble where
  | nan : CDouble
  | val : ℚ → CDouble
deriving Repr, DecidableEq

/-- The attribute state of a CSA object after construction
(csa.py lines 81-96): coordinate and data arrays, optional sigma,
and the four tunables.  Field order follows the assignment order in
the Python constructor. -/
structure CSAState where
  xin : List ℚ
  yin : List ℚ
  zin : List ℚ
  sigma : Option (List ℚ)
  k : Int
  nppc : Int
  npmin : Int
  npmax : Int
deriving Repr, DecidableEq

/-- CSA.__init__ (csa.py lines 81-96).  The only validation performed
is the xin/yin size comparison; a failed comparison raises ValueError
(modelled as Except.error carrying the message).  zin is stored into
the underscore attribute directly, bypassing the zin property setter,
so its size is not checked here; the tunables are stored unchecked. -/
def csaInit (xin yin zin : List ℚ) (sigma : Option (List ℚ))
    (npmin npmax k nppc : Int) : Except String CSAState :=
  if xin.length ≠ yin.length then
    Except.error ("xin and yin must have the same number of elements")
  else
    Except.ok ⟨xin, yin, zin, sigma, k, nppc, npmin, npmax⟩

/-- The zin property setter (csa.py lines 103-109).  Returns the
object state after the assignment statement together with a flag that
is true when a ValueError was raised.  The size check precedes the
assignment, so on the error path the state is returned unchanged. -/
def setZin (st : CSAState) (value : List ℚ) : CSAState × Bool :=
  if value.length ≠ st.xin.length then
    (st, true)
  else
    ({ st with zin := value }, false)

/-- CSA._calculate_points (csa.py lines 111-142).  The external C
routine is a parameter: given the object state, the output coordinates
and an index it yields the C double the returned pointer holds at that
index.  The Python code reads exactly nout = xout.size values from the
pointer, reshapes to the shape of xout and masks every NaN entry
(numpy.ma.masked_where(numpy.isnan(zout), zout)).  A masked entry is
modelled as none, an ordinary entry as some value; arrays are kept
flat, so the preserved shape surfaces as a preserved length. -/
def calculate_points (csaFn : CSAState → List ℚ → List ℚ → Nat → CDouble)
    (st : CSAState) (xout yout : List ℚ) : List (Option ℚ) :=
  let nout := xout.length
  let zptr := csaFn st xout yout
  (List.ofFn fun i : Fin nout => zptr i).map fun c =>
    match c with
    | CDouble.nan => none
    | CDouble.val q => some q

/-- CSA.__call__ (csa.py lines 144-163): delegates to
_calculate_points. -/
def csaCall (csaFn : CSAState → List ℚ → List ℚ → Nat → CDouble)
    (st : CSAState) (xout yout : List ℚ) : List (Option ℚ) :=
  calculate_points csaFn st xout yout

/-! ## Matrices -/

/-- Number of columns of a row-major matrix (length of its first
row). -/
def ncols (m : List (List ℚ)) : Nat := (m.getD 0 []).length

/-- Entry (i, j) of a row-major matrix, 0 outside the bounds. -/
def getE (m : List (List ℚ)) (i j : Nat) : ℚ := (m.getD i []).getD j 0

/-- Two rows agree entrywise within tol (and have equal length). -/
def approxRow (a b : List ℚ) (tol : ℚ) : Bool :=
  a.length == b.length &&
    (List.range a.length).all fun j => |a.getD j 0 - b.getD j 0| ≤ tol

/-- Two matrices agree entrywise within tol (and have equal shape). -/
def approxMat (a b : List (List ℚ)) (tol : ℚ) : Bool :=
  a.length == b.length &&
    (List.range a.length).all fun i => approxRow (a.getD i []) (b.getD i []) tol

/-- The tolerance of assert_array_almost_equal at decimal=2: absolute
differences below 1.5e-2 pass. -/
def tol2 : ℚ := 3 / 200

/-- All-ones matrix, the initial mask_rho of the data model. -/
def onesMat (r c : Nat) : List (List ℚ) :=
  List.ofFn fun _ : Fin r => List.ofFn fun _ : Fin c => (1 : ℚ)

/-! ## StaggerDeriver

Modelled from the spec: grid.py is absent from the sources, so the
derivation of the staggered arrays from the primary node array
(spec section 4.4) is modelled here and validated against the golden
tables of src/pygridgen/tests/test_grid.py. -/

/-- Modelled from the spec: psi[i,j] = X[i+1,j+1], the primary array
with its outer perimeter stripped, shape (ny-2, nx-2). -/
def psiMat (m : List (List ℚ)) : List (List ℚ) :=
  List.ofFn fun i : Fin (m.length - 2) =>
    List.ofFn fun j : Fin (ncols m - 2) => getE m (i + 1) (j + 1)

/-- Modelled from the spec: rho[i,j] = average of the four neighboring
primary nodes, shape (ny-1, nx-1). -/
def rhoMat (m : List (List ℚ)) : List (List ℚ) :=
  List.ofFn fun i : Fin (m.length - 1) =>
    List.ofFn fun j : Fin (ncols m - 1) =>
      (getE m i j + getE m i (j + 1) + getE m (i + 1) j + getE m (i + 1) (j + 1)) / 4

/-- The u face array as the golden tables of test_grid.py fix it:
u[i,j] = average(X[i,j+1], X[i+1,j+1]), the mean of the two vertically
adjacent primary nodes on the interior column j+1, shape
(ny-1, nx-2).  (The spec instead words u as an average of rho values;
that rule is refuted against the golden tables below.) -/
def uMat (m : List (List ℚ)) : List (List ℚ) :=
  List.ofFn fun i : Fin (m.length - 1) =>
    List.ofFn fun j : Fin (ncols m - 2) =>
      (getE m i (j + 1) + getE m (i + 1) (j + 1)) / 2

/-- The v face array as the golden tables of test_grid.py fix it:
v[i,j] = average(X[i+1,j], X[i+1,j+1]), the mean of the two
horizontally adjacent primary nodes on the interior row i+1, shape
(ny-2, nx-1). -/
def vMat (m : List (List ℚ)) : List (List ℚ) :=
  List.ofFn fun i : Fin (m.length - 2) =>
    List.ofFn fun j : Fin (ncols m - 1) =>
      (getE m (i + 1) j + getE m (i + 1) (j + 1)) / 2

/-- Modelled from the spec: the face rule as the spec words it,
u[i,j] = average(rho[i,j], rho[i,j+1]). -/
def uMatSpec (m : List (List ℚ)) : List (List ℚ) :=
  List.ofFn fun i : Fin (rhoMat m).length =>
    List.ofFn fun j : Fin (ncols (rhoMat m) - 1) =>
      (getE (rhoMat m) i j + getE (rhoMat m) i (j + 1)) / 2

/-- Modelled from the spec: the face rule as the spec words it,
v[i,j] = average(rho[i,j], rho[i+1,j]). -/
def vMatSpec (m : List (List ℚ)) : List (List ℚ) :=
  List.ofFn fun i : Fin ((rhoMat m).length - 1) =>
    List.ofFn fun j : Fin (ncols (rhoMat m)) =>
      (getE (rhoMat m) i j + getE (rhoMat m) (i + 1) j) / 2

/-! ## Golden tables of the basic test grid

Transcribed from known_xy_basic() in src/pygridgen/tests/test_grid.py
(boundary x=[0,1,2,1,0], y=[0,0,0.5,1,1], beta=[1,1,0,1,1], shape
(10,5), default tunables).  The tests assert that the solved grid
matches these tables with decimal=2. -/

def xVertBasic : List (List ℚ) := [
  [1, 1.12, 2, 1.12, 1],
  [0.96, 1.03, 1.17, 1.03, 0.96],
  [0.87, 0.91, 0.96, 0.91, 0.87],
  [0.77, 0.78, 0.8, 0.78, 0.77],
  [0.65, 0.65, 0.66, 0.65, 0.65],
  [0.52, 0.52, 0.53, 0.52, 0.52],
  [0.39, 0.39, 0.39, 0.39, 0.39],
  [0.26, 0.26, 0.26, 0.26, 0.26],
  [0.13, 0.13, 0.13, 0.13, 0.13],
  [0, 0, 0, 0, 0]]

def yVertBasic : List (List ℚ) := [
  [0, 0.06, 0.5, 0.94, 1],
  [0, 0.16, 0.5, 0.84, 1],
  [0, 0.21, 0.5, 0.79, 1],
  [0, 0.23, 0.5, 0.77, 1],
  [0, 0.24, 0.5, 0.76, 1],
  [0, 0.25, 0.5, 0.75, 1],
  [0, 0.25, 0.5, 0.75, 1],
  [0, 0.25, 0.5, 0.75, 1],
  [0, 0.25, 0.5, 0.75, 1],
  [0, 0.25, 0.5, 0.75, 1]]

def xPsiBasic : List (List ℚ) := [
  [1.03, 1.17, 1.03],
  [0.91, 0.96, 0.91],
  [0.78, 0.8, 0.78],
  [0.65, 0.66, 0.65],
  [0.52, 0.53, 0.52],
  [0.39, 0.39, 0.39],
  [0.26, 0.26, 0.26],
  [0.13, 0.13, 0.13]]

def yPsiBasic : List (List ℚ) := [
  [0.16, 0.5, 0.84],
  [0.21, 0.5, 0.79],
  [0.23, 0.5, 0.77],
  [0.24, 0.5, 0.76],
  [0.25, 0.5, 0.75],
  [0.25, 0.5, 0.75],
  [0.25, 0.5, 0.75],
  [0.25, 0.5, 0.75]]

def xRhoBasic : List (List ℚ) := [
  [1.03, 1.33, 1.33, 1.03],
  [0.94, 1.02, 1.02, 0.94],
  [0.83, 0.87, 0.87, 0.83],
  [0.71, 0.73, 0.73, 0.71],
  [0.59, 0.59, 0.59, 0.59],
  [0.46, 0.46, 0.46, 0.46],
  [0.33, 0.33, 0.33, 0.33],
  [0.2, 0.2, 0.2, 0.2],
  [0.07, 0.07, 0.07, 0.07]]

def yRhoBasic : List (List ℚ) := [
  [0.05, 0.3, 0.7, 0.95],
  [0.09, 0.34, 0.66, 0.91],
  [0.11, 0.36, 0.64, 0.89],
  [0.12, 0.37, 0.63, 0.88],
  [0.12, 0.37, 0.63, 0.88],
  [0.12, 0.37, 0.63, 0.88],
  [0.12, 0.37, 0.63, 0.88],
  [0.12, 0.37, 0.63, 0.88],
  [0.12, 0.37, 0.63, 0.88]]

def xUBasic : List (List ℚ) := [
  [1.08, 1.58, 1.08],
  [0.97, 1.06, 0.97],
  [0.85, 0.88, 0.85],
  [0.72, 0.73, 0.72],
  [0.59, 0.59, 0.59],
  [0.46, 0.46, 0.46],
  [0.33, 0.33, 0.33],
  [0.2, 0.2, 0.2],
  [0.07, 0.07, 0.07]]

def yUBasic : List (List ℚ) := [
  [0.11, 0.5, 0.89],
  [0.18, 0.5, 0.82],
  [0.22, 0.5, 0.78],
  [0.24, 0.5, 0.76],
  [0.24, 0.5, 0.76],
  [0.25, 0.5, 0.75],
  [0.25, 0.5, 0.75],
  [0.25, 0.5, 0.75],
  [0.25, 0.5, 0.75]]

def xVBasic : List (List ℚ) := [
  [1, 1.1, 1.1, 1],
  [0.89, 0.94, 0.94, 0.89],
  [0.78, 0.79, 0.79, 0.78],
  [0.65, 0.66, 0.66, 0.65],
  [0.52, 0.53, 0.53, 0.52],
  [0.39, 0.39, 0.39, 0.39],
  [0.26, 0.26, 0.26, 0.26],
  [0.13, 0.13, 0.13, 0.13]]

def yVBasic : List (List ℚ) := [
  [0.08, 0.33, 0.67, 0.92],
  [0.1, 0.35, 0.65, 0.9],
  [0.12, 0.37, 0.63, 0.88],
  [0.12, 0.37, 0.63, 0.88],
  [0.12, 0.37, 0.63, 0.88],
  [0.12, 0.37, 0.63, 0.88],
  [0.12, 0.37, 0.63, 0.88],
  [0.12, 0.37, 0.63, 0.88]]

/-- The expected mask after masking the island polygon, from
test_mask_poylgon in test_grid.py. -/
def knownMaskRho : List (List ℚ) := [
  [1, 1, 1, 1],
  [1, 1, 1, 0],
  [1, 1, 0, 0],
  [1, 1, 0, 0],
  [1, 1, 0, 0],
  [1, 1, 1, 1],
  [1, 1, 1, 1],
  [1, 1, 1, 1],
  [1, 1, 1, 1]]

/-! ## MaskEngine

Modelled from the spec: grid.py is absent from the sources, so
mask_polygon (spec section 4.6) is modelled here: the point-in-polygon
test on the cell centers is a parameter, and a cell whose center lies
inside the polygon has its mask entry set to 0 while every other entry
is kept. -/

/-- Modelled from the spec: mask_polygon over cell centers (cx, cy)
with current mask, where inside is the point-in-polygon test of the
masked polygon (edge-inclusive per the spec tie-break). -/
def mask_polygon (inside : ℚ → ℚ → Bool) (cx cy mask : List (List ℚ)) :
    List (List ℚ) :=
  List.ofFn fun i : Fin mask.length =>
    List.ofFn fun j : Fin ((mask.getD i []).length) =>
      if inside (getE cx i j) (getE cy i j) then 0 else getE mask i j

/-- Edge-inclusive membership in the island polygon of
test_mask_poylgon: the square with corners (0.5,0.5) and (1,1). -/
def insideIsland (x y : ℚ) : Bool :=
  (1 / 2 ≤ x && x ≤ 1) && (1 / 2 ≤ y && y ≤ 1)

/-! ## SpecCodec and the solve wrapper

Modelled from the spec: grid.py is absent from the sources, so
GridSpec (spec section 3), to_spec/from_spec (section 4.7) and
generate_grid (section 6) are modelled here.  The solver itself is an
external routine; it enters as a function parameter, which is exactly
the determinism contract of section 4.3 (the output depends on nothing
but the serialized inputs). -/

/-- A logical axis for focus points. -/
inductive GridAxis where
  | row : GridAxis
  | col : GridAxis
deriving Repr, DecidableEq

/-- Modelled from the spec: a FocusPoint (spec section 3). -/
structure FocusPoint where
  location : ℚ
  axis : GridAxis
  factor : ℚ
  extent : ℚ
deriving Repr, DecidableEq

/-- Modelled from the spec: the solver tunables of GridSpec, with the
default values recorded by options() in test_grid.py. -/
structure Tunables where
  nnodes : Nat
  precision : ℚ
  nppe : Nat
  newton : Bool
  thin : Bool
  checksimplepoly : Bool
deriving Repr, DecidableEq

/-- Modelled from the spec: the full serializable parameter bundle
(boundary points, shape, ul_idx, focus definition, solver tunables,
projection identity). -/
structure GridSpec where
  xbry : List ℚ
  ybry : List ℚ
  beta : List ℚ
  ny : Nat
  nx : Nat
  ulIdx : Nat
  focus : List FocusPoint
  tunables : Tunables
  proj : Option String
deriving Repr, DecidableEq

/-- Modelled from the spec: a grid handle holding its generating
parameters and the solved primary array (x and y fields). -/
structure Gridgen where
  spec : GridSpec
  x : List (List ℚ)
  y : List (List ℚ)
deriving Repr, DecidableEq

/-- Modelled from the spec: to_spec serializes the generative inputs,
never the derived arrays. -/
def to_spec (g : Gridgen) : GridSpec := g.spec

/-- Modelled from the spec: from_spec re-runs the solver on the
deserialized parameter bundle. -/
def from_spec (solve : GridSpec → List (List ℚ) × List (List ℚ))
    (s : GridSpec) : Gridgen :=
  ⟨s, (solve s).1, (solve s).2⟩

/-- The grid g was produced by a successful solve with the given
solver and its mutable fields are unchanged since: its primary array
is what the solver yields on its current parameter bundle. -/
def solvedBy (solve : GridSpec → List (List ℚ) × List (List ℚ))
    (g : Gridgen) : Prop :=
  g.x = (solve g.spec).1 ∧ g.y = (solve g.spec).2

/-- Modelled from the spec: generate_grid re-solves from the current
parameter bundle and overwrites the primary array (the derived arrays
are recomputed from it by the StaggerDeriver functions above). -/
def generate_grid (solve : GridSpec → List (List ℚ) × List (List ℚ))
    (g : Gridgen) : Gridgen :=
  ⟨g.spec, (solve g.spec).1, (solve g.spec).2⟩

/-- The default tunables of options() in test_grid.py. -/
def defaultTunables : Tunables :=
  ⟨14, 1 / 1000000000000, 3, true, true, true⟩

/-- The parameter bundle of the basic test grid: planar boundary,
shape (10, 5), ul_idx 0, no focus, no projection, default tunables. -/
def basicSpec : GridSpec :=
  ⟨[0, 1, 2, 1, 0], [0, 0, 0.5, 1, 1], [1, 1, 0, 1, 1],
    10, 5, 0, [], defaultTunables, none⟩

/-- A concrete solver stand-in for witnesses: it returns the golden
primary array of the basic grid on every parameter bundle. -/
def solveBasic (_ : GridSpec) : List (List ℚ) × List (List ℚ) :=
  (xVertBasic, yVertBasic)

/-- The basic test grid as solved by solveBasic. -/
def gBasic : Gridgen := ⟨basicSpec, xVertBasic, yVertBasic⟩

/-! ## Helper lemmas -/

/-- getD on a list built by ofFn evaluates the generating function at
any in-bounds index. -/
theorem getD_ofFn {α : Type} {n : Nat} (f : Fin n → α) (j : Nat)
    (hj : j < n) (d : α) :
    (List.ofFn f).getD j d = f ⟨j, hj⟩ := by
  rw [List.getD_eq_getElem?_getD, List.getElem?_ofFn]
  simp [List.ofFnNthVal, hj]

/-- getE on a matrix built by nested ofFn evaluates the generating
function at any in-bounds index pair. -/
theorem getE_ofFn {r c : Nat} (f : Fin r → Fin c → ℚ) (i j : Nat)
    (hi : i < r) (hj : j < c) :
    getE (List.ofFn fun a => List.ofFn fun b => f a b) i j
      = f ⟨i, hi⟩ ⟨j, hj⟩ := by
  unfold getE
  rw [getD_ofFn _ i hi, getD_ofFn _ j hj]

/-- The island mask of test_mask_poylgon: applied to the golden rho
centers of the basic grid with the all-ones initial mask, the modelled
mask engine reproduces the known mask table exactly. -/
theorem mask_polygon_island_golden :
    mask_polygon insideIsland xRhoBasic yRhoBasic (onesMat 9 4) =
      knownMaskRho := by
  with_unfolding_all decide

/-! ## Claim theorems: CSA (src/pygridgen/csa.py) -/

/-- C5 (counterexample): the claim says a zin whose length mismatches
the coordinate arrays makes construction fail with ValueError.  It
does not: CSA.__init__ stores zin into the underscore attribute
without any size check, so constructing with xin, yin of length 2 and
zin of length 1 succeeds. -/
theorem c5_cex_zin_mismatch_accepted :
    csaInit [0, 1] [0, 1] [0] none 3 40 140 5 =
      Except.ok ⟨[0, 1], [0, 1], [0], none, 140, 5, 3, 40⟩ := rfl

/-- C5 (amended): construction fails with ValueError exactly when xin
and yin differ in length; a zin of mismatched size is accepted at
construction (stored as-is) and is only checked when zin is later
assigned through the property setter. -/
theorem c5_init_checks_only_coordinate_lengths
    (xin yin zin : List ℚ) (sigma : Option (List ℚ))
    (npmin npmax k nppc : Int) :
    (xin.length ≠ yin.length →
      csaInit xin yin zin sigma npmin npmax k nppc =
        Except.error ("xin and yin must have the same number of elements")) ∧
    (xin.length = yin.length →
      csaInit xin yin zin sigma npmin npmax k nppc =
        Except.ok ⟨xin, yin, zin, sigma, k, nppc, npmin, npmax⟩) := by
  constructor <;> intro h <;> simp [csaInit, h]

/-- C5 (witness): a concrete mismatched pair of coordinate arrays is
rejected with the ValueError message. -/
theorem c5_witness :
    csaInit [0] [0, 1] [0] none 3 40 140 5 =
      Except.error ("xin and yin must have the same number of elements") :=
  (c5_init_checks_only_coordinate_lengths [0] [0, 1] [0] none 3 40 140 5).1
    (by decide)

/-- C6 (counterexample): the claim says out-of-range tunables
(npmin < 1, npmax < npmin, k ≤ 0, nppc ≤ 0) cause a ValueError at
construction.  CSA.__init__ performs no tunable validation: a
construction violating all four ranges at once succeeds. -/
theorem c6_cex_invalid_tunables_accepted :
    csaInit [0] [0] [0] none 0 (-1) 0 0 =
      Except.ok ⟨[0], [0], [0], none, 0, 0, 0, -1⟩ := rfl

/-- C6 (amended): the tunables are stored unvalidated; whenever the
coordinate arrays match in length, construction succeeds and records
exactly the tunable values it was given, whatever they are. -/
theorem c6_tunables_stored_unvalidated
    (xin yin zin : List ℚ) (sigma : Option (List ℚ))
    (npmin npmax k nppc : Int) (h : xin.length = yin.length) :
    csaInit xin yin zin sigma npmin npmax k nppc =
      Except.ok ⟨xin, yin, zin, sigma, k, nppc, npmin, npmax⟩ := by
  simp [csaInit, h]

/-- C6 (witness): a concrete construction with every tunable negative
succeeds and stores those values. -/
theorem c6_witness :
    csaInit [0] [0] [0] none (-5) (-7) (-1) (-2) =
      Except.ok ⟨[0], [0], [0], none, -1, -2, -5, -7⟩ :=
  c6_tunables_stored_unvalidated [0] [0] [0] none (-5) (-7) (-1) (-2) rfl

/-- C7: calling the interpolator returns an array of the same size as
xout in which an entry is masked (none) exactly when the external
fitting routine produced NaN at that output point, and every other
entry carries the approximated value the routine produced. -/
theorem c7_call_masks_nan_entries
    (csaFn : CSAState → List ℚ → List ℚ → Nat → CDouble)
    (st : CSAState) (xout yout : List ℚ) :
    (csaCall csaFn st xout yout).length = xout.length ∧
    ∀ i : Fin xout.length,
      (csaCall csaFn st xout yout).getD i none =
        match csaFn st xout yout i with
        | CDouble.nan => none
        | CDouble.val q => some q := by
  unfold csaCall calculate_points
  constructor
  · simp
  · intro i
    rw [List.map_ofFn]
    rw [getD_ofFn _ i i.isLt none]
    rfl

/-- C10: assigning a value whose number of elements differs from xin
through the zin property raises ValueError and leaves the object
state (in particular the stored zin) unchanged; assigning a value of
matching size replaces the stored zin and raises nothing. -/
theorem c10_setZin_spec (st : CSAState) (value : List ℚ) :
    (value.length ≠ st.xin.length → setZin st value = (st, true)) ∧
    (value.length = st.xin.length →
      setZin st value = ({ st with zin := value }, false)) := by
  constructor <;> intro h <;> simp [setZin, h]

/-- C10 (witness): a concrete mismatched assignment raises and leaves
the state unchanged. -/
theorem c10_witness :
    setZin ⟨[0], [0], [0], none, 140, 5, 3, 40⟩ [1, 2] =
      (⟨[0], [0], [0], none, 140, 5, 3, 40⟩, true) :=
  (c10_setZin_spec ⟨[0], [0], [0], none, 140, 5, 3, 40⟩ [1, 2]).1 (by decide)

/-! ## Claim theorems: staggered grid family -/

/-- C1 (counterexample): the claim derives u by averaging rho along
the column axis, u[i,j] = average(rho[i,j], rho[i,j+1]).  That rule is
inconsistent with the golden tables of the basic test grid: the
repository tests assert x_rho and x_u within 1.5e-2 of the golden
values, and no rationals within those bands around
x_rho[0,0] = 1.03, x_rho[0,1] = 1.33 and x_u[0,0] = 1.08 can satisfy
the averaging equation (the average lies above 1.165 while the u band
ends at 1.095). -/
theorem c1_cex_u_not_average_of_rho :
    ¬ ∃ r0 r1 u0 : ℚ,
        |r0 - getE xRhoBasic 0 0| < 3 / 200 ∧
        |r1 - getE xRhoBasic 0 1| < 3 / 200 ∧
        |u0 - getE xUBasic 0 0| < 3 / 200 ∧
        u0 = (r0 + r1) / 2 := by
  have h1 : getE xRhoBasic 0 0 = 103 / 100 := by with_unfolding_all decide
  have h2 : getE xRhoBasic 0 1 = 133 / 100 := by with_unfolding_all decide
  have h3 : getE xUBasic 0 0 = 108 / 100 := by with_unfolding_all decide
  rintro ⟨r0, r1, u0, a0, a1, a2, a3⟩
  rw [h1, abs_lt] at a0
  rw [h2, abs_lt] at a1
  rw [h3, abs_lt] at a2
  subst a3
  linarith [a0.1, a1.1, a2.2]

/-- C1 (amended): the face arrays are averaged directly from the
primary node array, not from rho: u[i,j] = average(X[i,j+1],
X[i+1,j+1]) on shape (ny-1, nx-2) and v[i,j] = average(X[i+1,j],
X[i+1,j+1]) on shape (ny-2, nx-1), identically for the x and y
fields.  The entrywise rules hold for the modelled deriver, and the
rules reproduce the golden u and v tables of the basic test grid
within the 1.5e-2 tolerance the repository tests use. -/
theorem c1_faces_averaged_from_primary_nodes :
    (∀ m : List (List ℚ), ∀ i j : Nat, i < m.length - 1 → j < ncols m - 2 →
      getE (uMat m) i j = (getE m i (j + 1) + getE m (i + 1) (j + 1)) / 2) ∧
    (∀ m : List (List ℚ), ∀ i j : Nat, i < m.length - 2 → j < ncols m - 1 →
      getE (vMat m) i j = (getE m (i + 1) j + getE m (i + 1) (j + 1)) / 2) ∧
    approxMat (uMat xVertBasic) xUBasic tol2 = true ∧
    approxMat (uMat yVertBasic) yUBasic tol2 = true ∧
    approxMat (vMat xVertBasic) xVBasic tol2 = true ∧
    approxMat (vMat yVertBasic) yVBasic tol2 = true := by
  refine ⟨?_, ?_, ?_, ?_, ?_, ?_⟩
  · intro m i j hi hj
    exact getE_ofFn
      (fun a b => (getE m a.val (b.val + 1) + getE m (a.val + 1) (b.val + 1)) / 2)
      i j hi hj
  · intro m i j hi hj
    exact getE_ofFn
      (fun a b => (getE m (a.val + 1) b.val + getE m (a.val + 1) (b.val + 1)) / 2)
      i j hi hj
  all_goals with_unfolding_all decide

/-- C1 (witness): the amended u rule evaluated at the first entry of
the basic golden primary array. -/
theorem c1_witness :
    getE (uMat xVertBasic) 0 0 =
      (getE xVertBasic 0 1 + getE xVertBasic 1 1) / 2 :=
  c1_faces_averaged_from_primary_nodes.1 xVertBasic 0 0 (by decide) (by decide)

/-- C2: psi strips the outer perimeter of the primary array,
psi[i,j] = X[i+1,j+1], and rho is the four-point average of the
neighboring primary nodes.  The entrywise rules hold for the modelled
deriver, psi of the golden basic primary array equals the golden psi
table exactly, and the rho rule reproduces the golden rho table within
the 1.5e-2 tolerance the repository tests use; identically for the x
and y fields. -/
theorem c2_psi_strips_perimeter_rho_averages_four :
    (∀ m : List (List ℚ), ∀ i j : Nat, i < m.length - 2 → j < ncols m - 2 →
      getE (psiMat m) i j = getE m (i + 1) (j + 1)) ∧
    (∀ m : List (List ℚ), ∀ i j : Nat, i < m.length - 1 → j < ncols m - 1 →
      getE (rhoMat m) i j =
        (getE m i j + getE m i (j + 1) + getE m (i + 1) j +
          getE m (i + 1) (j + 1)) / 4) ∧
    psiMat xVertBasic = xPsiBasic ∧
    psiMat yVertBasic = yPsiBasic ∧
    approxMat (rhoMat xVertBasic) xRhoBasic tol2 = true ∧
    approxMat (rhoMat yVertBasic) yRhoBasic tol2 = true := by
  refine ⟨?_, ?_, ?_, ?_, ?_, ?_⟩
  · intro m i j hi hj
    exact getE_ofFn (fun a b => getE m (a.val + 1) (b.val + 1)) i j hi hj
  · intro m i j hi hj
    exact getE_ofFn
      (fun a b => (getE m a.val b.val + getE m a.val (b.val + 1) +
        getE m (a.val + 1) b.val + getE m (a.val + 1) (b.val + 1)) / 4)
      i j hi hj
  all_goals with_unfolding_all decide

/-- C2 (witness): the psi rule evaluated at the first entry of the
basic golden primary array. -/
theorem c2_witness :
    getE (psiMat xVertBasic) 0 0 = getE xVertBasic 1 1 :=
  c2_psi_strips_perimeter_rho_averages_four.1 xVertBasic 0 0
    (by decide) (by decide)

/-- C3: for a primary array of shape (ny, nx) with ny ≥ 2, the derived
arrays have exactly the shapes psi (ny-2, nx-2), rho (ny-1, nx-1),
u (ny-1, nx-2) and v (ny-2, nx-1). -/
theorem c3_derived_shapes (m : List (List ℚ)) (ny nx : Nat)
    (hl : m.length = ny) (hc : ∀ r ∈ m, r.length = nx) (hny : 2 ≤ ny) :
    (psiMat m).length = ny - 2 ∧ (∀ r ∈ psiMat m, r.length = nx - 2) ∧
    (rhoMat m).length = ny - 1 ∧ (∀ r ∈ rhoMat m, r.length = nx - 1) ∧
    (uMat m).length = ny - 1 ∧ (∀ r ∈ uMat m, r.length = nx - 2) ∧
    (vMat m).length = ny - 2 ∧ (∀ r ∈ vMat m, r.length = nx - 1) := by
  have hpos : 0 < m.length := by omega
  have hnx : ncols m = nx := by
    have h0 : m.getD 0 [] = m[0] := by
      rw [List.getD_eq_getElem?_getD, List.getElem?_eq_getElem hpos]
      rfl
    unfold ncols
    rw [h0]
    exact hc _ (List.getElem_mem hpos)
  subst hl
  refine ⟨?_, ?_, ?_, ?_, ?_, ?_, ?_, ?_⟩ <;>
    simp [psiMat, rhoMat, uMat, vMat, List.forall_mem_ofFn_iff, hnx]

/-- C3 (witness): the shapes at the golden basic primary array, of
shape (10, 5). -/
theorem c3_witness :
    (psiMat xVertBasic).length = 10 - 2 ∧
    (∀ r ∈ psiMat xVertBasic, r.length = 5 - 2) ∧
    (rhoMat xVertBasic).length = 10 - 1 ∧
    (∀ r ∈ rhoMat xVertBasic, r.length = 5 - 1) ∧
    (uMat xVertBasic).length = 10 - 1 ∧
    (∀ r ∈ uMat xVertBasic, r.length = 5 - 2) ∧
    (vMat xVertBasic).length = 10 - 2 ∧
    (∀ r ∈ vMat xVertBasic, r.length = 5 - 1) :=
  c3_derived_shapes xVertBasic 10 5 (by decide) (by decide) (by decide)

/-! ## Claim theorems: SpecCodec, MaskEngine and regeneration -/

/-- C4: for a grid produced by a successful solve whose mutable fields
are unchanged since, regenerating from its serialized parameter bundle
reproduces the primary array: every entry of the x and y fields of
from_spec(to_spec(g)) is within 1e-6 of the corresponding entry of g
(here they agree exactly, since the solver rerun sees the identical
inputs). -/
theorem c4_spec_roundtrip
    (solve : GridSpec → List (List ℚ) × List (List ℚ))
    (g : Gridgen) (h : solvedBy solve g) :
    (∀ i j : Nat,
      |getE (from_spec solve (to_spec g)).x i j - getE g.x i j| ≤
        1 / 1000000) ∧
    (∀ i j : Nat,
      |getE (from_spec solve (to_spec g)).y i j - getE g.y i j| ≤
        1 / 1000000) := by
  obtain ⟨hx, hy⟩ := h
  constructor <;> intro i j
  · show |getE (solve g.spec).1 i j - getE g.x i j| ≤ 1 / 1000000
    rw [← hx, sub_self, abs_zero]
    norm_num
  · show |getE (solve g.spec).2 i j - getE g.y i j| ≤ 1 / 1000000
    rw [← hy, sub_self, abs_zero]
    norm_num

/-- C4 (witness): the round trip at the basic test grid, with a
solver stand-in producing the golden basic primary array. -/
theorem c4_witness :
    |getE (from_spec solveBasic (to_spec gBasic)).x 0 0 -
      getE gBasic.x 0 0| ≤ 1 / 1000000 :=
  (c4_spec_roundtrip solveBasic gBasic ⟨rfl, rfl⟩).1 0 0

/-- C8: mask_polygon sets the mask entry of every rho cell whose
center lies inside the polygon to 0, returns every other entry
unchanged, and in particular never turns a 0 entry back into 1: a cell
already masked stays masked. -/
theorem c8_mask_polygon_only_subtracts (inside : ℚ → ℚ → Bool)
    (cx cy mask : List (List ℚ)) (i j : Nat)
    (hi : i < mask.length) (hj : j < (mask.getD i []).length) :
    getE (mask_polygon inside cx cy mask) i j =
      (if inside (getE cx i j) (getE cy i j) then 0 else getE mask i j) ∧
    (getE mask i j = 0 →
      getE (mask_polygon inside cx cy mask) i j = 0) := by
  have key : getE (mask_polygon inside cx cy mask) i j =
      if inside (getE cx i j) (getE cy i j) then 0 else getE mask i j := by
    unfold mask_polygon getE
    rw [getD_ofFn _ i hi]
    rw [getD_ofFn _ j hj]
  refine ⟨key, fun h0 => ?_⟩
  rw [key]
  split
  · rfl
  · exact h0

/-- C8 (witness): the masking rule at cell (2,2) of the basic grid,
whose golden center (0.87, 0.64) lies inside the island square, with
the all-ones initial mask. -/
theorem c8_witness :
    getE (mask_polygon insideIsland xRhoBasic yRhoBasic (onesMat 9 4)) 2 2 =
      (if insideIsland (getE xRhoBasic 2 2) (getE yRhoBasic 2 2) then 0
        else getE (onesMat 9 4) 2 2) ∧
    (getE (onesMat 9 4) 2 2 = 0 →
      getE (mask_polygon insideIsland xRhoBasic yRhoBasic (onesMat 9 4)) 2 2
        = 0) :=
  c8_mask_polygon_only_subtracts insideIsland xRhoBasic yRhoBasic
    (onesMat 9 4) 2 2 (by decide) (by decide)

/-- C9: regeneration is a pure function of the parameter bundle:
calling generate_grid twice with unchanged inputs yields the same grid
as calling it once, and two grids with identical parameter bundles
regenerate into identical grids (primary arrays and hence all derived
arrays coincide). -/
theorem c9_generate_grid_deterministic
    (solve : GridSpec → List (List ℚ) × List (List ℚ))
    (g1 g2 : Gridgen) (h : g1.spec = g2.spec) :
    generate_grid solve (generate_grid solve g1) = generate_grid solve g1 ∧
    generate_grid solve g1 = generate_grid solve g2 := by
  constructor
  · rfl
  · simp only [generate_grid, h]

/-- C9 (witness): regeneration of the basic test grid with the golden
solver stand-in. -/
theorem c9_witness :
    generate_grid solveBasic (generate_grid solveBasic gBasic) =
      generate_grid solveBasic gBasic ∧
    generate_grid solveBasic gBasic = generate_grid solveBasic gBasic :=
  c9_generate_grid_deterministic solveBasic gBasic gBasic rfl
